import Mathlib

/-!
Verification of the row-transformation pipeline of the DASS born-digital
accessioning tool (`dass_born_digital_accessioning_tool.py`).

The Python source is shallowly embedded below: pure helpers become Lean
functions on `String`/`List Char`; the remote ArchivesSpace API is an
oracle parameter (each call's response is passed in explicitly); exceptions
are modelled with `Except` or with explicit result constructors.
-/

namespace Dass

/-! ## Python string primitives

Models of the Python `str` operations the tool uses: `in` (substring
test), `str.lower`, `str.split(sep)`, `str.partition(sep)[0]`,
`str.rpartition(sep)[2]`, `str.replace(a, '')`.
-/

/-- Model of Python `needle in haystack` on `List Char`: does `pat` occur
as a contiguous sublist of `l`? -/
def subOccurs (pat : List Char) : List Char → Bool
  | [] => pat.isEmpty
  | c :: rest => pat.isPrefixOf (c :: rest) || subOccurs pat rest

/-- Model of Python `needle in haystack` for strings. -/
def pyContains (s pat : String) : Bool :=
  subOccurs pat.data s.data

/-- Model of Python `str.lower()` (ASCII data in this tool). -/
def pyLower (s : String) : String :=
  ⟨s.data.map Char.toLower⟩

/-- Model of Python `str.split(sep)` for a one-character separator:
splits at every occurrence, keeping empty pieces. -/
def splitChar (sep : Char) : List Char → List (List Char)
  | [] => [[]]
  | c :: rest =>
    let r := splitChar sep rest
    if c = sep then [] :: r
    else
      match r with
      | [] => [[c]]
      | h :: t => (c :: h) :: t

/-- Model of Python `str.partition(sep)[0]`: the part of `l` before the
first occurrence of `sep`, or all of `l` when `sep` does not occur. -/
def partBefore (sep : List Char) : List Char → List Char
  | [] => []
  | c :: rest =>
    if sep.isPrefixOf (c :: rest) then []
    else c :: partBefore sep rest

/-- Suffix of `l` after the last occurrence of `sep`, or `none` when `sep`
does not occur (helper for `str.rpartition`). -/
def afterLast (sep : List Char) : List Char → Option (List Char)
  | [] => none
  | c :: rest =>
    match afterLast sep rest with
    | some suf => some suf
    | none =>
      if sep.isPrefixOf (c :: rest) then some (List.drop sep.length (c :: rest))
      else none

/-- Model of Python `s.partition(sep)[0]` on strings. -/
def pyPartBefore (s sep : String) : String :=
  ⟨partBefore sep.data s.data⟩

/-- Model of Python `s.rpartition(sep)[2]` on strings: the part after the
last occurrence of `sep`; the whole string when `sep` does not occur
(Python returns `('', '', s)` in that case). -/
def pyRpartAfter (s sep : String) : String :=
  ⟨(afterLast sep.data s.data).getD s.data⟩

/-- Model of Python `s.replace(',', '')`: drop every comma. -/
def stripCommas (s : String) : String :=
  ⟨s.data.filter (fun c => c ≠ ',')⟩

/-! ## `datetime.strptime` / `strftime` model

`check_dates` calls `datetime.strptime` with the formats `%m/%d/%Y`,
`%m/%d/%y`, `%Y/%m/%d` and `%m-%d-%y` and reformats with
`strftime('%Y-%m-%d')`.  CPython's `_strptime` matches `%m` by the regex
`1[0-2]|0[1-9]|[1-9]`, `%d` by `3[01]|[12]\d|0[1-9]|[1-9]`, `%Y` by
`\d\d\d\d` and `%y` by `\d\d` (with `%y` values 0–68 mapped to 2000–2068
and 69–99 to 1969–1999), requires the whole string to match, and then
`datetime(...)` validates the day against the month and the year range
1–9999, raising `ValueError` on any failure.
-/

/-- Numeric value of a digit string. -/
def digitsVal (l : List Char) : Nat :=
  l.foldl (fun acc c => acc * 10 + (c.toNat - 48)) 0

/-- All characters are ASCII digits. -/
def allDigits (l : List Char) : Bool :=
  l.all Char.isDigit

/-- CPython `%m` field: one digit 1–9 or two digits 01–12. -/
def matchMonth (seg : List Char) : Option Nat :=
  if allDigits seg then
    let v := digitsVal seg
    if (seg.length = 1 ∧ 1 ≤ v ∧ v ≤ 9) ∨ (seg.length = 2 ∧ 1 ≤ v ∧ v ≤ 12) then some v
    else none
  else none

/-- CPython `%d` field: one digit 1–9 or two digits 01–31. -/
def matchDay (seg : List Char) : Option Nat :=
  if allDigits seg then
    let v := digitsVal seg
    if (seg.length = 1 ∧ 1 ≤ v ∧ v ≤ 9) ∨ (seg.length = 2 ∧ 1 ≤ v ∧ v ≤ 31) then some v
    else none
  else none

/-- CPython `%Y` field: exactly four digits. -/
def matchYear4 (seg : List Char) : Option Nat :=
  if allDigits seg ∧ seg.length = 4 then some (digitsVal seg) else none

/-- CPython `%y` field: exactly two digits, 0–68 meaning 2000–2068 and
69–99 meaning 1969–1999. -/
def matchYear2 (seg : List Char) : Option Nat :=
  if allDigits seg ∧ seg.length = 2 then
    let v := digitsVal seg
    some (if v ≤ 68 then 2000 + v else 1900 + v)
  else none

/-- Gregorian leap year, as `calendar.isleap` / `datetime` use it. -/
def isLeap (y : Nat) : Bool :=
  y % 4 = 0 ∧ (y % 100 ≠ 0 ∨ y % 400 = 0)

/-- Days in a month, as `datetime` validates them. -/
def daysInMonth (y m : Nat) : Nat :=
  if m = 2 then (if isLeap y then 29 else 28)
  else if m = 4 ∨ m = 6 ∨ m = 9 ∨ m = 11 then 30
  else 31

/-- Decimal digits of `n` zero-padded to width 2 (`strftime` `%m`/`%d`). -/
def pad2 (n : Nat) : String :=
  if n < 10 then "0" ++ toString n else toString n

/-- Decimal digits of `n` zero-padded to width 4 (`strftime` `%Y`). -/
def pad4 (n : Nat) : String :=
  if n < 10 then "000" ++ toString n
  else if n < 100 then "00" ++ toString n
  else if n < 1000 then "0" ++ toString n
  else toString n

/-- Result of `check_dates`.  `ok s` is a normal return of the string `s`;
`noneResult` is Python's implicit `return None`; `dve v c` is a raised
`DataValidationError(v, c)`; `valueError` is a `ValueError` escaping from
`datetime.strptime` (or the `datetime` constructor). -/
inductive DateRes where
  | ok (s : String)
  | noneResult
  | dve (value correct_value : String)
  | valueError
  deriving DecidableEq

/-- Shared tail of the `strptime`+`strftime` model: the `datetime`
constructor's range checks followed by `strftime('%Y-%m-%d')`. -/
def mkDate (y m d : Nat) : DateRes :=
  if 1 ≤ y ∧ y ≤ 9999 ∧ d ≤ daysInMonth y m then
    .ok (pad4 y ++ "-" ++ pad2 m ++ "-" ++ pad2 d)
  else .valueError

/-- `datetime.strptime(s, '%m/%d/%Y').strftime('%Y-%m-%d')`. -/
def strptime_mdY (s : String) : DateRes :=
  match splitChar '/' s.data with
  | [ms, ds, ys] =>
    match matchMonth ms, matchDay ds, matchYear4 ys with
    | some m, some d, some y => mkDate y m d
    | _, _, _ => .valueError
  | _ => .valueError

/-- `datetime.strptime(s, '%m' sep '%d' sep '%y').strftime('%Y-%m-%d')`,
used with `sep = '/'` and `sep = '-'`. -/
def strptime_mdy (sep : Char) (s : String) : DateRes :=
  match splitChar sep s.data with
  | [ms, ds, ys] =>
    match matchMonth ms, matchDay ds, matchYear2 ys with
    | some m, some d, some y => mkDate y m d
    | _, _, _ => .valueError
  | _ => .valueError

/-- `datetime.strptime(s, '%Y/%m/%d').strftime('%Y-%m-%d')`. -/
def strptime_Ymd (s : String) : DateRes :=
  match splitChar '/' s.data with
  | [ys, ms, ds] =>
    match matchYear4 ys, matchMonth ms, matchDay ds with
    | some y, some m, some d => mkDate y m d
    | _, _, _ => .valueError
  | _ => .valueError

/-- Embedding of `check_dates` (source lines 351–370): dispatch on the
presence of `/` and the lengths of the first and last slash-separated
segments; hyphenated slash-free values shorter than 10 characters go
through `%m-%d-%y`, and longer ones fall off the end of the function
(Python returns `None`). -/
def check_dates (date_value : String) : DateRes :=
  if pyContains date_value "/" then
    let parts := splitChar '/' date_value.data
    let last_value := parts.getLastD []
    let first_value := parts.headD []
    if last_value.length = 4 then strptime_mdY date_value
    else if last_value.length = 2 then
      (if first_value.length ≠ 4 then strptime_mdy '/' date_value
       else strptime_Ymd date_value)
    else .dve date_value "YYYY-MM-DD"
  else if pyContains date_value "-" then
    (if date_value.length < 10 then strptime_mdy '-' date_value else .noneResult)
  else .dve date_value "YYYY-MM-DD"

/-! ## Spreadsheet row and record builder -/

/-- The fields of one spreadsheet row that the builder and event functions
read.  `top_container` holds the value of `row['Top Container']` at the
time `update_archival_object`/`create_archival_object` run: by then `main`
has replaced the CSV indicator with the matched container URI, and
`get_matched_containers` can return Python `None` (modelled as `none`). -/
structure Row where
  title : String
  component_unique_id : String
  type_1 : String
  number_of_bytes : String
  container_summary : String
  top_container : Option String
  event_type_1 : String
  outcome_1 : String
  begin_1 : String
  outcome_note_1 : String
  event_type_2 : String
  outcome_2 : String
  begin_2 : String
  outcome_note_2 : String
  event_type_3 : String
  outcome_3 : String
  begin_3 : String
  outcome_note_3 : String
  deriving DecidableEq

/-- An extent subrecord as built by `update_extents`.  `container_summary`
is `none` when the Python dict has no such key. -/
structure Extent where
  number : String
  portion : String
  extent_type : String
  jsonmodel_type : String
  container_summary : Option String
  deriving DecidableEq

/-- Embedding of `update_extents` (source lines 338–349): a typed extent
with number `'1'` when `Type_1` is non-empty, then a `bytes` extent with
commas stripped when `Number_of_bytes` is non-empty; the container summary
key is added only to the second (bytes) extent. -/
def update_extents (row : Row) : List Extent :=
  (if row.type_1 ≠ "" then
    [{ number := "1", portion := "whole", extent_type := row.type_1,
       jsonmodel_type := "extent", container_summary := none }]
   else []) ++
  (if row.number_of_bytes ≠ "" then
    [{ number := stripCommas row.number_of_bytes, portion := "whole", extent_type := "bytes",
       jsonmodel_type := "extent",
       container_summary := if row.container_summary ≠ "" then some row.container_summary else none }]
   else [])

/-- A top-container reference, `{'ref': uri}`. -/
structure TopContainer where
  ref : String
  deriving DecidableEq

/-- A sub-container subrecord. -/
structure SubContainer where
  jsonmodel_type : String
  top_container : TopContainer
  deriving DecidableEq

/-- An instance subrecord of an archival object. -/
structure Instance where
  instance_type : String
  jsonmodel_type : String
  sub_container : SubContainer
  deriving DecidableEq

/-- Embedding of `create_instance` (source lines 332–336). -/
def create_instance (container_uri : String) : Instance :=
  { instance_type := "mixed_materials", jsonmodel_type := "instance",
    sub_container := { jsonmodel_type := "sub_container",
                       top_container := { ref := container_uri } } }

/-- The part of a fetched archival-object record that
`update_archival_object` reads or writes. -/
structure ArchivalObject where
  component_id : String
  extents : List Extent
  instances : List Instance
  deriving DecidableEq

/-- Loop body of `get_uris` (source lines 413–418): collect the top
container refs of all non-digital-object instances, in order. -/
def get_uris_go : List Instance → List String
  | [] => []
  | inst :: rest =>
    if inst.instance_type ≠ "digital_object" then
      inst.sub_container.top_container.ref :: get_uris_go rest
    else get_uris_go rest

/-- Embedding of `get_uris` (source lines 413–418). -/
def get_uris (record_json : ArchivalObject) : List String :=
  get_uris_go record_json.instances

/-- Embedding of the record mutation of `update_archival_object` (source
lines 420–433) after the GET of the record succeeds: replace the
component ID and the extents, and when `row['Top Container']` is neither
`''` nor `None` and its URI is not among the current non-digital-object
container refs, append a fresh instance.  Returns the payload and the
POST endpoint. -/
def update_archival_object (row : Row) (record_json : ArchivalObject)
    (repo_id ao_id : String) : ArchivalObject × String :=
  let record_json := { record_json with component_id := row.component_unique_id }
  let record_json := { record_json with extents := update_extents row }
  let record_json :=
    match row.top_container with
    | none => record_json
    | some tc =>
      if tc ≠ "" then
        let current_container_uris := get_uris record_json
        if tc ∉ current_container_uris then
          { record_json with instances := record_json.instances ++ [create_instance tc] }
        else record_json
      else record_json
  (record_json, "/repositories/" ++ repo_id ++ "/archival_objects/" ++ ao_id)

/-! ## Events -/

/-- The event payload built by `create_event`: `date_begin` models the
`'begin'` key of the nested `'date'` dict, which Python sets to the value
returned by `check_dates` (possibly `None`). -/
structure EventRecord where
  event_type : String
  outcome : String
  outcome_note : String
  authorizer_ref : String
  source_ref : String
  date_begin : Option String
  deriving DecidableEq

/-- Embedding of `create_event` (source lines 372–381).  A
`DataValidationError` from `check_dates` is caught and logged and the
function returns `None` (`.ok none`); a `ValueError` from `strptime` is
not caught and propagates (`.error ()`); otherwise the payload is built,
with the event type and outcome lowercased. -/
def create_event (agent_uri ao_id repo_id event_type outcome date_value outcome_note : String) :
    Except Unit (Option EventRecord) :=
  match check_dates date_value with
  | .valueError => .error ()
  | .dve _ _ => .ok none
  | .ok d =>
    .ok (some { event_type := pyLower event_type, outcome := pyLower outcome,
                outcome_note := outcome_note, authorizer_ref := agent_uri,
                source_ref := "/repositories/" ++ repo_id ++ "/archival_objects/" ++ ao_id,
                date_begin := some d })
  | .noneResult =>
    .ok (some { event_type := pyLower event_type, outcome := pyLower outcome,
                outcome_note := outcome_note, authorizer_ref := agent_uri,
                source_ref := "/repositories/" ++ repo_id ++ "/archival_objects/" ++ ao_id,
                date_begin := none })

/-- Embedding of `event_helper` (source lines 383–394).  The remote POST
of the event is an oracle: `post_response = some uri` models a 200
response whose body carries `uri`, `none` models an `ArchivesSpaceError`.
A falsy `new_event` re-raises `DataValidationError`, and both it and an
`ArchivesSpaceError` are caught by the helper's own `except`, which logs
and returns `None`; an uncaught `ValueError` propagates. -/
def event_helper (post_response : Option String)
    (agent_uri record_uri repo_id event_type outcome begin_date outcome_note : String) :
    Except Unit (Option String) :=
  match create_event agent_uri record_uri repo_id event_type outcome begin_date outcome_note with
  | .error () => .error ()
  | .ok none => .ok none
  | .ok (some _) =>
    match post_response with
    | some uri => .ok (some uri)
    | none => .ok none

/-- Embedding of `post_events` (source lines 396–411): for each of the
three event slots whose type is non-empty, call `event_helper` and store
the result (possibly `None`) under the slot's key, in slot order.  The
oracle `p1 p2 p3` gives the remote response for each slot's POST.  The
function's own `except` clause only catches `ArchivesSpaceError` and
`DataValidationError`, which `event_helper` never lets escape, so the
only escaping exception is a `ValueError` (`.error ()`). -/
def post_events (row : Row) (agent_uri repo_id record_uri : String)
    (p1 p2 p3 : Option String) : Except Unit (List (String × Option String)) := do
  let e1 ←
    if row.event_type_1 ≠ "" then
      (event_helper p1 agent_uri record_uri repo_id
        row.event_type_1 row.outcome_1 row.begin_1 row.outcome_note_1).map
        (fun u => [("Event_URI_1", u)])
    else .ok []
  let e2 ←
    if row.event_type_2 ≠ "" then
      (event_helper p2 agent_uri record_uri repo_id
        row.event_type_2 row.outcome_2 row.begin_2 row.outcome_note_2).map
        (fun u => [("Event_URI_2", u)])
    else .ok []
  let e3 ←
    if row.event_type_3 ≠ "" then
      (event_helper p3 agent_uri record_uri repo_id
        row.event_type_3 row.outcome_3 row.begin_3 row.outcome_note_3).map
        (fun u => [("Event_URI_3", u)])
    else .ok []
  return e1 ++ e2 ++ e3

/-! ## Identifier extraction and action dispatch -/

/-- Embedding of `set_resource` (source lines 156–162), applied to
`row['Parent Record']`: cut the URL at `'/#'` when that separator occurs,
otherwise at `'#'`, and take the final slash-delimited component of the
part before the cut. -/
def set_resource (parent_record : String) : String :=
  if pyContains parent_record "/#" then
    pyRpartAfter (pyPartBefore parent_record "/#") "/"
  else
    pyRpartAfter (pyPartBefore parent_record "#") "/"

/-- Embedding of the per-row identifier extraction
`row['Parent Record'].rpartition('_')[2]` (source line 548); the same
extraction is `set_parent` (source lines 149–151) for the first row. -/
def record_id (parent_record : String) : String :=
  pyRpartAfter parent_record "_"

/-- The archival-object GET/POST URL built from a record id (source
line 421 of `update_archival_object`). -/
def ao_record_url (api_url repo_id ao_id : String) : String :=
  api_url ++ "/repositories/" ++ repo_id ++ "/archival_objects/" ++ ao_id

/-- The two row-processing functions `set_action_type` can select. -/
inductive ActionType where
  | create_archival_object
  | update_archival_object
  deriving DecidableEq

/-- Embedding of `set_action_type` (source lines 171–177): dispatch on
the lowercased filename containing `'create'` or `'update'`; otherwise
raise `FileNameError(input_file)` (`.error input_file`). -/
def set_action_type (input_file : String) : Except String ActionType :=
  if pyContains (pyLower input_file) "create" then .ok .create_archival_object
  else if pyContains (pyLower input_file) "update" then .ok .update_archival_object
  else .error input_file

/-! ## Traces of `main`'s run prefix

`main` (source lines 511–532) logs in once (line 518, a network POST)
before the file loop; then, per file, `get_action` (line 524) catches and
logs a `FileNameError` from `set_action_type` and returns `None`, after
which execution continues unconditionally into `get_repo` (line 528,
which performs a network GET of `/repositories` via `get_repositories`)
and `get_agent` (line 532, a network lookup of the current user or an
agent search).  The trace below records exactly those observable steps
for a run over one file, up to line 532.
-/

/-- The network calls appearing in the modelled run prefix. -/
inductive NetCall where
  | login
  | getRepositories
  | agentLookup
  deriving DecidableEq

/-- One observable step of `main`'s run prefix: a network call, or the
logging of a `FileNameError` by `get_action`. -/
inductive TraceEvent where
  | network (c : NetCall)
  | fileNameErrorLogged (filename : String)
  deriving DecidableEq

/-- Steps of `main` for one file from line 524 (`get_action`) to line 532
(`get_agent`): the `FileNameError` is logged when the filename lacks both
markers, and the repository and agent network lookups follow in either
case. -/
def file_head_trace (input_file : String) : List TraceEvent :=
  (match set_action_type input_file with
   | .error f => [.fileNameErrorLogged f]
   | .ok _ => []) ++
  [.network .getRepositories, .network .agentLookup]

/-- Steps of a run of `main` over a single input file, up to line 532:
the login POST of line 518 precedes the file loop. -/
def run_head_trace (input_file : String) : List TraceEvent :=
  .network .login :: file_head_trace input_file

/-! ## The row loop and file loop of `main`

The models below capture the control flow of `main`'s loops (source
lines 519–582) that claims about classification, written output and
container lookups depend on.  Network responses are oracles carried by
the row data: `post_ok` says whether the POST of the row's payload (line
563) succeeds (`False` models an `ArchivesSpaceError` or
`RequestException` caught at line 568).
-/

/-- One CSV data row, reduced to the fields the loop's control flow
reads: the parent-record reference (line 548) and the outcome of the
row's POST. -/
structure LoopRow where
  parent_record : String
  post_ok : Bool
  deriving DecidableEq

/-- Embedding of the row loop (source lines 546–581): rows whose
extracted record id is empty are skipped and logged; a successful POST
writes the row to the output file; a failed POST logs the row, marks the
file errored and `break`s out, leaving the remaining rows unprocessed.
Returns (rows written to the output file, whether the file was appended
to `file_results['errors']`, rows never reached). -/
def main_row_loop : List LoopRow → List LoopRow × Bool × List LoopRow
  | [] => ([], false, [])
  | r :: rest =>
    if record_id r.parent_record ≠ "" then
      if r.post_ok then
        let (written, errored, unreached) := main_row_loop rest
        (r :: written, errored, unreached)
      else ([], true, rest)
    else main_row_loop rest

/-- One input CSV file: its path and its data rows. -/
structure FileSpec where
  name : String
  rows : List LoopRow
  deriving DecidableEq

/-- The `file_results` mapping of `main`, restricted to the two keys the
code ever appends to. -/
structure FileResults where
  errors : List String
  complete : List String
  deriving DecidableEq

/-- Embedding of the file loop's classification (source lines 519–582):
the file is appended to `file_results['errors']` at the point of a POST
failure (line 573), and — line 582 being unconditional, directly after
the `with` block — appended to `file_results['complete']` for every file,
errored or not. -/
def main_file_loop : List FileSpec → FileResults
  | [] => { errors := [], complete := [] }
  | f :: fs =>
    let (_, errored, _) := main_row_loop f.rows
    let rest := main_file_loop fs
    { errors := (if errored then [f.name] else []) ++ rest.errors,
      complete := f.name :: rest.complete }

/-- Embedding of the container-lookup guard of the row loop (source
lines 535, 551–553): `previous_container` is bound once to the first
row's indicator (line 535) and never reassigned inside the loop, so each
row triggers `get_containers` exactly when its indicator is non-empty
and differs from the *first* row's indicator.  Returns, per row, whether
the lookup at line 553 runs. -/
def container_lookups (previous_container : String) : List String → List Bool
  | [] => []
  | tc :: rest =>
    (tc != "" && tc != previous_container) :: container_lookups previous_container rest

end Dass
namespace Dass


/-! ## Concrete rows and records used in the theorems below -/

/-- A row with every field empty, as the CSV reader yields for an unused
column; concrete rows below override the fields they use. -/
def blankRow : Row :=
  { title := "", component_unique_id := "", type_1 := "", number_of_bytes := "",
    container_summary := "", top_container := none,
    event_type_1 := "", outcome_1 := "", begin_1 := "", outcome_note_1 := "",
    event_type_2 := "", outcome_2 := "", begin_2 := "", outcome_note_2 := "",
    event_type_3 := "", outcome_3 := "", begin_3 := "", outcome_note_3 := "" }
/-- The URI value (possibly `None`) that `event_helper` produces for one
slot when no `ValueError` escapes. -/
def slot_uri (post_response : Option String)
    (agent_uri record_uri repo_id event_type outcome begin_date outcome_note : String) :
    Option String :=
  match event_helper post_response agent_uri record_uri repo_id event_type outcome begin_date outcome_note with
  | .ok u => u
  | .error _ => none
/-- A fetched record with a single (non-digital-object) container
instance. -/
def oneInstanceRecord : ArchivalObject :=
  { component_id := "old.cid", extents := [],
    instances := [create_instance "/repositories/2/top_containers/101"] }
/-- A row resolved to a second, different container URI. -/
def secondContainerRow : Row :=
  { blankRow with component_unique_id := "new.cid",
                  top_container := some "/repositories/2/top_containers/102" }
/-- Row whose first event slot has a supported date shape with invalid
values. -/
def badDateEventRow : Row :=
  { blankRow with event_type_1 := "Migration", begin_1 := "13/45/2024",
                  event_type_2 := "Virus check", begin_2 := "03/04/2024" }
/-- Row mixing a malformed date, a good slot and an empty date. -/
def mixedEventRow : Row :=
  { blankRow with event_type_1 := "Migration", begin_1 := "bad date",
                  event_type_2 := "Virus check", begin_2 := "03/04/2024",
                  event_type_3 := "Imaging", begin_3 := "" }

/-! ## Supporting lemmas -/

lemma getLast?_eq_some_mem {l : List Char} {a : Char} (h : l.getLast? = some a) : a ∈ l := by
  induction l with
  | nil => simp at h
  | cons c rest ih =>
    cases rest with
    | nil => simp at h; simp [h]
    | cons b t =>
      rw [List.getLast?_cons_cons] at h
      exact List.mem_cons_of_mem c (ih h)

lemma afterLast_underscore_none {l : List Char} (h : '_' ∉ l) : afterLast ['_'] l = none := by
  induction l with
  | nil => rfl
  | cons c rest ih =>
    have hc : c ≠ '_' := fun hc => h (hc ▸ List.mem_cons_self c rest)
    have hr : '_' ∉ rest := fun hr => h (List.mem_cons_of_mem c hr)
    simp [afterLast, ih hr, List.isPrefixOf, Ne.symm hc]

lemma afterLast_none_not_mem {l : List Char} (h : afterLast ['_'] l = none) : '_' ∉ l := by
  induction l with
  | nil => simp
  | cons c rest ih =>
    intro hmem
    simp only [afterLast] at h
    rcases hAL : afterLast ['_'] rest with _ | suf
    · rw [hAL] at h
      by_cases hc : '_' = c
      · simp [List.isPrefixOf, hc] at h
        exact h hc
      · rcases List.mem_cons.mp hmem with rfl | hr
        · exact hc rfl
        · exact ih hAL hr
    · rw [hAL] at h
      simp at h

lemma afterLast_getD_empty_iff (l : List Char) :
    (afterLast ['_'] l).getD l = [] ↔ (l = [] ∨ l.getLast? = some '_') := by
  induction l with
  | nil => simp [afterLast]
  | cons c rest ih =>
    rcases hAL : afterLast ['_'] rest with _ | suf
    · have hnm : '_' ∉ rest := afterLast_none_not_mem hAL
      by_cases hc : c = '_'
      · subst hc
        have hstep : afterLast ['_'] ('_' :: rest) = some rest := by
          simp [afterLast, hAL, List.isPrefixOf]
        rw [hstep]
        cases rest with
        | nil => simp
        | cons b t =>
          simp only [Option.getD_some, List.getLast?_cons_cons]
          constructor
          · intro h; exact absurd h (by simp)
          · rintro (h | h)
            · exact absurd h (by simp)
            · exact absurd (getLast?_eq_some_mem h) hnm
      · have hstep : afterLast ['_'] (c :: rest) = none := by
          simp [afterLast, hAL, List.isPrefixOf, Ne.symm hc]
        rw [hstep]
        simp only [Option.getD_none]
        constructor
        · intro h; exact absurd h (by simp)
        · rintro (h | h)
          · exact absurd h (by simp)
          · cases rest with
            | nil => simp at h; exact (hc h).elim
            | cons b t =>
              rw [List.getLast?_cons_cons] at h
              exact absurd (getLast?_eq_some_mem h) hnm
    · have hstep : afterLast ['_'] (c :: rest) = some suf := by
        simp [afterLast, hAL]
      rw [hstep]
      cases rest with
      | nil => simp [afterLast] at hAL
      | cons b t =>
        rw [hAL] at ih
        simp only [Option.getD_some] at ih ⊢
        rw [List.getLast?_cons_cons]
        simp only [List.cons_ne_nil, false_or] at ih ⊢
        exact ih

lemma record_id_empty_iff (s : String) :
    record_id s = "" ↔ (s = "" ∨ s.data.getLast? = some '_') := by
  have hrid : (record_id s).data = (afterLast ['_'] s.data).getD s.data := rfl
  rw [String.ext_iff, hrid, show ("" : String).data = [] from rfl, afterLast_getD_empty_iff]
  exact or_congr String.ext_iff.symm Iff.rfl

lemma record_id_no_underscore {s : String} (h : '_' ∉ s.data) : record_id s = s := by
  have hrw : record_id s = ⟨(afterLast ['_'] s.data).getD s.data⟩ := rfl
  rw [hrw, afterLast_underscore_none h]
  rfl

lemma main_row_loop_skip (ref : String) (ok : Bool) (rest : List LoopRow)
    (h : record_id ref = "") :
    main_row_loop (⟨ref, ok⟩ :: rest) = main_row_loop rest := by
  simp [main_row_loop, h]

lemma main_row_loop_write (ref : String) (rest : List LoopRow)
    (h : record_id ref ≠ "") :
    (main_row_loop (⟨ref, true⟩ :: rest)).1 = ⟨ref, true⟩ :: (main_row_loop rest).1 := by
  rcases hml : main_row_loop rest with ⟨w, e, u⟩
  simp [main_row_loop, h, hml]

/-- C10: a row is skipped as having an empty identifier exactly when its
parent-record reference is empty or ends with an underscore; a reference
with no underscore is returned whole by the `rpartition` extraction, so
the row is processed and the full reference string appears in the
archival-object URL. -/
theorem C10_record_id_extraction (ref : String) :
    (record_id ref = "" ↔ (ref = "" ∨ ref.data.getLast? = some '_')) ∧
    ('_' ∉ ref.data → record_id ref = ref) ∧
    (∀ (ok : Bool) (rest : List LoopRow), record_id ref = "" →
      main_row_loop (⟨ref, ok⟩ :: rest) = main_row_loop rest) ∧
    (∀ rest : List LoopRow, record_id ref ≠ "" →
      (main_row_loop (⟨ref, true⟩ :: rest)).1 = ⟨ref, true⟩ :: (main_row_loop rest).1) ∧
    (∀ api repo : String, '_' ∉ ref.data →
      ao_record_url api repo (record_id ref) =
        api ++ "/repositories/" ++ repo ++ "/archival_objects/" ++ ref) := by
  refine ⟨record_id_empty_iff ref, fun h => record_id_no_underscore h,
    fun ok rest h => main_row_loop_skip ref ok rest h,
    fun rest h => main_row_loop_write ref rest h,
    fun api repo h => by rw [ao_record_url, record_id_no_underscore h]⟩

/-- C10 witness: the underscore-free reference `7780` is extracted whole
and used verbatim in the archival-object URL. -/
theorem C10_record_id_extraction_witness :
    record_id "7780" = "7780" ∧
    ao_record_url "https://api.test.edu" "2" (record_id "7780") =
      "https://api.test.edu/repositories/2/archival_objects/7780" :=
  ⟨(C10_record_id_extraction "7780").2.1 (by decide),
   (C10_record_id_extraction "7780").2.2.2.2 "https://api.test.edu" "2" (by decide)⟩

/-- C8: `set_resource` supports both accepted parent-record URL shapes —
bare `#` and `/#` as the fragment separator — yielding `77` on both
example URLs by taking the path segment before the separator and then its
final slash-delimited component. -/
theorem C8_set_resource_two_url_shapes :
    set_resource ".../repositories/2/resources/77#tree::archival_object_123" = "77" ∧
    set_resource ".../repositories/2/resources/77/#tree" = "77" := by
  exact ⟨by decide, by decide⟩

/-- C1: at a file whose second row's POST fails, the first row stays in
the written output, the third row is never reached (the loop breaks), and
the file lands in `file_results['errors']` — but, line 582 running
unconditionally, it ALSO lands in `file_results['complete']`, so the
claim's "classified `errors` and not `complete`" fails on the code. -/
theorem C1_errored_file_also_listed_complete :
    main_row_loop [⟨"ao_11", true⟩, ⟨"ao_12", false⟩, ⟨"ao_13", true⟩] =
      ([⟨"ao_11", true⟩], true, [⟨"ao_13", true⟩]) ∧
    main_file_loop [⟨"update batch.csv",
        [⟨"ao_11", true⟩, ⟨"ao_12", false⟩, ⟨"ao_13", true⟩]⟩] =
      { errors := ["update batch.csv"], complete := ["update batch.csv"] } := by
  exact ⟨by decide, by decide⟩

/-- C4: `previous_container` is never reassigned inside the row loop, so
the cache-rebuild guard compares every row against the FIRST row's
indicator: with rows `Box 1, Box 2, Box 2` the two consecutive `Box 2`
rows BOTH trigger a container lookup, refuting the claim that consecutive
rows sharing a box indicator trigger at most one lookup between them. -/
theorem C4_lookup_compares_first_row_only :
    container_lookups "Box 1" ["Box 1", "Box 2", "Box 2"] = [false, true, true] := by
  decide

/-- C2 counterexample: `13/45/2024` (a supported shape with invalid field
values) raises `ValueError` from `strptime`, not `DataValidationError`,
and the slash-free hyphenated 10-character string `2024-03-04` returns
`None` rather than raising — both contradict the claim that every
unsupported input raises `DataValidationError`. -/
theorem C2_counterexample :
    check_dates "2024-03-04" = DateRes.noneResult ∧
    check_dates "13/45/2024" = DateRes.valueError := by
  exact ⟨by decide, by decide⟩

/-- C2 amended: `check_dates` returns the `YYYY-MM-DD` form on the
supported shapes with valid values (the three example dates included);
a string containing neither `/` nor `-` raises `DataValidationError`
naming `YYYY-MM-DD`, as does a slash string with unsupported segment
lengths; but a shape-conforming date with invalid values raises
`ValueError` from `strptime`, and a slash-free hyphenated string of
length 10 or more returns `None`. -/
theorem C2_normalize_date_amended :
    check_dates "03/04/2024" = DateRes.ok "2024-03-04" ∧
    check_dates "03/04/24" = DateRes.ok "2024-03-04" ∧
    check_dates "2024/03/04" = DateRes.ok "2024-03-04" ∧
    (∀ s : String, pyContains s "/" = false → pyContains s "-" = false →
      check_dates s = DateRes.dve s "YYYY-MM-DD") ∧
    check_dates "1/2/202" = DateRes.dve "1/2/202" "YYYY-MM-DD" ∧
    check_dates "13/45/2024" = DateRes.valueError ∧
    check_dates "2024-03-04" = DateRes.noneResult := by
  refine ⟨by decide, by decide, by decide, ?_, by decide, by decide, by decide⟩
  intro s h1 h2
  simp [check_dates, h1, h2]

/-- C2 witness: the amended universal clause applied at the concrete
slash-free, hyphen-free input `March 2024`. -/
theorem C2_normalize_date_amended_witness :
    check_dates "March 2024" = DateRes.dve "March 2024" "YYYY-MM-DD" :=
  C2_normalize_date_amended.2.2.2.1 "March 2024" (by decide) (by decide)


/-- C7: `update_extents` yields 0–2 entries — one typed entry with number
`1` exactly when `Type_1` is non-empty, one `bytes` entry with commas
stripped exactly when `Number_of_bytes` is non-empty — and any container
summary is attached to the bytes entry only, never the typed entry; the
two concrete example rows evaluate as the claim states. -/
theorem C7_update_extents_shape :
    (∀ row : Row,
      (update_extents row).length =
        (if row.type_1 ≠ "" then 1 else 0) + (if row.number_of_bytes ≠ "" then 1 else 0) ∧
      ((∃ e ∈ update_extents row,
          e.extent_type = row.type_1 ∧ e.number = "1" ∧ e.container_summary = none) ↔
        row.type_1 ≠ "") ∧
      ((∃ e ∈ update_extents row,
          e.extent_type = "bytes" ∧ e.number = stripCommas row.number_of_bytes) ↔
        row.number_of_bytes ≠ "") ∧
      (∀ e ∈ update_extents row, e.container_summary ≠ none →
        e.extent_type = "bytes" ∧ e.number = stripCommas row.number_of_bytes ∧
        row.container_summary ≠ "" ∧ e.container_summary = some row.container_summary)) ∧
    update_extents { blankRow with type_1 := "linear feet" } =
      [{ number := "1", portion := "whole", extent_type := "linear feet",
         jsonmodel_type := "extent", container_summary := none }] ∧
    update_extents { blankRow with number_of_bytes := "1,200", container_summary := "folder A" } =
      [{ number := "1200", portion := "whole", extent_type := "bytes",
         jsonmodel_type := "extent", container_summary := some "folder A" }] := by
  refine ⟨fun row => ?_, by decide, by decide⟩
  by_cases h1 : row.type_1 = "" <;> by_cases h2 : row.number_of_bytes = "" <;>
    by_cases h3 : row.container_summary = "" <;>
    simp [update_extents, h1, h2, h3, stripCommas]

/-- C7 witness: the length formula applied at the `linear feet` example
row gives exactly one extent. -/
theorem C7_update_extents_shape_witness :
    (update_extents { blankRow with type_1 := "linear feet" }).length = 1 :=
  ((C7_update_extents_shape.1 { blankRow with type_1 := "linear feet" }).1).trans (by decide)

/-- Shape of the instance list the update path returns. -/
lemma update_ao_instances_eq (row : Row) (record_json : ArchivalObject) (repo_id ao_id : String) :
    ((update_archival_object row record_json repo_id ao_id).1).instances =
      match row.top_container with
      | none => record_json.instances
      | some tc =>
        if tc ≠ "" then
          (if tc ∉ get_uris record_json then record_json.instances ++ [create_instance tc]
           else record_json.instances)
        else record_json.instances := by
  rcases h : row.top_container with _ | tc <;> simp [update_archival_object, h, get_uris]
  split_ifs <;> rfl

/-- C3: the update path never removes an existing container instance —
every instance of the fetched record survives the update; a new instance
is appended exactly when the row's container URI is non-empty and not
among the record's current non-digital-object container refs, growing the
instance list by one; otherwise the list is unchanged. -/
theorem C3_update_never_removes_instances (record_json : ArchivalObject) (row : Row)
    (repo_id ao_id : String) :
    (∀ inst ∈ record_json.instances,
      inst ∈ ((update_archival_object row record_json repo_id ao_id).1).instances) ∧
    (∀ tc, row.top_container = some tc → tc ≠ "" → tc ∉ get_uris record_json →
      ((update_archival_object row record_json repo_id ao_id).1).instances =
        record_json.instances ++ [create_instance tc]) ∧
    (∀ tc, row.top_container = some tc → tc ∈ get_uris record_json →
      ((update_archival_object row record_json repo_id ao_id).1).instances =
        record_json.instances) ∧
    (row.top_container = none →
      ((update_archival_object row record_json repo_id ao_id).1).instances =
        record_json.instances) ∧
    (∀ tc, row.top_container = some tc → tc ≠ "" → tc ∉ get_uris record_json →
      ((update_archival_object row record_json repo_id ao_id).1).instances.length =
        record_json.instances.length + 1) := by
  refine ⟨?_, ?_, ?_, ?_, ?_⟩
  · intro inst hm
    rw [update_ao_instances_eq]
    rcases h : row.top_container with _ | tc
    · exact hm
    · by_cases h1 : tc = ""
      · simp [h1, hm]
      · by_cases h2 : tc ∈ get_uris record_json
        · simp [h1, h2, hm]
        · simp [h1, h2, List.mem_append, hm]
  · intro tc h h1 h2
    rw [update_ao_instances_eq, h]
    simp [h1, h2]
  · intro tc h h2
    rw [update_ao_instances_eq, h]
    by_cases h1 : tc = "" <;> simp [h1, h2]
  · intro h
    rw [update_ao_instances_eq, h]
  · intro tc h h1 h2
    rw [update_ao_instances_eq, h]
    simp [h1, h2]



/-- C3 witness: a record with one existing container instance, updated by
a row resolved to a second, different container URI, ends with exactly
two instances and keeps the original one. -/
theorem C3_update_never_removes_instances_witness :
    ((update_archival_object secondContainerRow oneInstanceRecord "2" "5").1).instances.length = 2 ∧
    create_instance "/repositories/2/top_containers/101" ∈
      ((update_archival_object secondContainerRow oneInstanceRecord "2" "5").1).instances :=
  ⟨by
    have h := (C3_update_never_removes_instances oneInstanceRecord secondContainerRow "2" "5").2.2.2.2
      "/repositories/2/top_containers/102" (by decide) (by decide) (by decide)
    simpa using h,
   (C3_update_never_removes_instances oneInstanceRecord secondContainerRow "2" "5").1
     (create_instance "/repositories/2/top_containers/101") (by decide)⟩


lemma event_helper_no_value_error (p : Option String) (a r rp ty oc bg nt : String)
    (h : check_dates bg ≠ DateRes.valueError) :
    event_helper p a r rp ty oc bg nt = .ok (slot_uri p a r rp ty oc bg nt) := by
  rcases hc : check_dates bg with d | _ | ⟨v, c⟩ | _
  · cases p <;> simp [event_helper, create_event, slot_uri, hc]
  · cases p <;> simp [event_helper, create_event, slot_uri, hc]
  · simp [event_helper, create_event, slot_uri, hc]
  · exact absurd hc h

lemma event_helper_dve (p : Option String) (a r rp ty oc bg nt v c : String)
    (h : check_dates bg = DateRes.dve v c) :
    event_helper p a r rp ty oc bg nt = .ok none := by
  simp [event_helper, create_event, h]

lemma event_helper_post_failure (a r rp ty oc bg nt : String)
    (h : check_dates bg ≠ DateRes.valueError) :
    event_helper none a r rp ty oc bg nt = .ok none := by
  rcases hc : check_dates bg with d | _ | ⟨v, c⟩ | _
  · simp [event_helper, create_event, hc]
  · simp [event_helper, create_event, hc]
  · simp [event_helper, create_event, hc]
  · exact absurd hc h

lemma event_helper_success (u : String) (a r rp ty oc bg nt d : String)
    (h : check_dates bg = DateRes.ok d) :
    event_helper (some u) a r rp ty oc bg nt = .ok (some u) := by
  simp [event_helper, create_event, h]

/-- C5 amended: provided no slot's begin date makes `check_dates` raise
`ValueError`, `post_events` completes and returns one entry per non-empty
event-type slot, each computed independently by `event_helper`; a slot
whose date raises `DataValidationError` or whose POST fails contributes
its key mapped to no URI (Python `None`) while the other slots are
unaffected.  (A `ValueError` — a supported date shape with invalid
values — instead escapes every handler and aborts the row and run.) -/
theorem C5_per_slot_isolation_amended (row : Row) (agent repo rec : String)
    (p1 p2 p3 : Option String)
    (h1 : row.event_type_1 ≠ "" → check_dates row.begin_1 ≠ DateRes.valueError)
    (h2 : row.event_type_2 ≠ "" → check_dates row.begin_2 ≠ DateRes.valueError)
    (h3 : row.event_type_3 ≠ "" → check_dates row.begin_3 ≠ DateRes.valueError) :
    post_events row agent repo rec p1 p2 p3 = Except.ok (
      (if row.event_type_1 ≠ "" then
        [("Event_URI_1", slot_uri p1 agent rec repo row.event_type_1 row.outcome_1
            row.begin_1 row.outcome_note_1)] else []) ++
      (if row.event_type_2 ≠ "" then
        [("Event_URI_2", slot_uri p2 agent rec repo row.event_type_2 row.outcome_2
            row.begin_2 row.outcome_note_2)] else []) ++
      (if row.event_type_3 ≠ "" then
        [("Event_URI_3", slot_uri p3 agent rec repo row.event_type_3 row.outcome_3
            row.begin_3 row.outcome_note_3)] else [])) ∧
    (∀ (p : Option String) (a r rp ty oc bg nt v c : String),
      check_dates bg = DateRes.dve v c → event_helper p a r rp ty oc bg nt = .ok none) ∧
    (∀ a r rp ty oc bg nt : String, check_dates bg ≠ DateRes.valueError →
      event_helper none a r rp ty oc bg nt = .ok none) ∧
    (∀ u a r rp ty oc bg nt d : String, check_dates bg = DateRes.ok d →
      event_helper (some u) a r rp ty oc bg nt = .ok (some u)) := by
  refine ⟨?_, event_helper_dve, event_helper_post_failure, event_helper_success⟩
  have hv1 : ∀ ht : ¬ row.event_type_1 = "",
      event_helper p1 agent rec repo row.event_type_1 row.outcome_1 row.begin_1
        row.outcome_note_1 =
      .ok (slot_uri p1 agent rec repo row.event_type_1 row.outcome_1 row.begin_1
        row.outcome_note_1) :=
    fun ht => event_helper_no_value_error p1 agent rec repo row.event_type_1 row.outcome_1
      row.begin_1 row.outcome_note_1 (h1 ht)
  have hv2 : ∀ ht : ¬ row.event_type_2 = "",
      event_helper p2 agent rec repo row.event_type_2 row.outcome_2 row.begin_2
        row.outcome_note_2 =
      .ok (slot_uri p2 agent rec repo row.event_type_2 row.outcome_2 row.begin_2
        row.outcome_note_2) :=
    fun ht => event_helper_no_value_error p2 agent rec repo row.event_type_2 row.outcome_2
      row.begin_2 row.outcome_note_2 (h2 ht)
  have hv3 : ∀ ht : ¬ row.event_type_3 = "",
      event_helper p3 agent rec repo row.event_type_3 row.outcome_3 row.begin_3
        row.outcome_note_3 =
      .ok (slot_uri p3 agent rec repo row.event_type_3 row.outcome_3 row.begin_3
        row.outcome_note_3) :=
    fun ht => event_helper_no_value_error p3 agent rec repo row.event_type_3 row.outcome_3
      row.begin_3 row.outcome_note_3 (h3 ht)
  by_cases ht1 : row.event_type_1 = "" <;> by_cases ht2 : row.event_type_2 = "" <;>
    by_cases ht3 : row.event_type_3 = "" <;>
    (simp [post_events, ht1, ht2, ht3, hv1 , hv2 , hv3 , Except.map, Except.bind]; try rfl)


/-- C5 counterexample: a first slot whose date is `13/45/2024` raises
`ValueError`, so `post_events` raises instead of returning — the second
slot is never processed and the row does not complete, contradicting
per-slot isolation for every date failure. -/
theorem C5_value_error_aborts_row :
    post_events badDateEventRow "/agents/people/3" "2" "/repositories/2/archival_objects/900"
      (some "/repositories/2/events/1") (some "/repositories/2/events/2")
      (some "/repositories/2/events/3") = Except.error () := by
  rfl


/-- C5 witness: a malformed-shape date in slot 1, a successful slot 2 and
an empty date in slot 3 give a completed row whose mapping holds no URI
for slots 1 and 3 and the posted URI for slot 2. -/
theorem C5_per_slot_isolation_amended_witness :
    post_events mixedEventRow "/agents/people/3" "2" "/repositories/2/archival_objects/900"
      none (some "/repositories/2/events/77") none =
      Except.ok [("Event_URI_1", none), ("Event_URI_2", some "/repositories/2/events/77"),
                 ("Event_URI_3", none)] := by
  have h := C5_per_slot_isolation_amended mixedEventRow "/agents/people/3" "2"
    "/repositories/2/archival_objects/900" none (some "/repositories/2/events/77") none
    (fun _ => by decide) (fun _ => by decide) (fun _ => by decide)
  exact h.1.trans (by rfl)

/-- C6 counterexample: for a filename containing neither `create` nor
`update`, the run's trace starts with the login network call BEFORE the
`FileNameError` is logged, and the repository and agent network lookups
still follow it — so the error does not precede all network calls of the
run, nor prevent network calls for the file. -/
theorem C6_network_calls_despite_filename_error :
    run_head_trace "inventory.csv" =
      [TraceEvent.network NetCall.login, TraceEvent.fileNameErrorLogged "inventory.csv",
       TraceEvent.network NetCall.getRepositories, TraceEvent.network NetCall.agentLookup] := by
  decide

/-- C6 amended: a filename containing neither `create` nor `update`
(case-insensitive) makes `set_action_type` raise `FileNameError`, which
`get_action` logs — but only after the run's login network call, and the
repository and agent network lookups for the file still run afterward. -/
theorem C6_filename_error_amended (f : String)
    (hc : pyContains (pyLower f) "create" = false)
    (hu : pyContains (pyLower f) "update" = false) :
    set_action_type f = Except.error f ∧
    run_head_trace f =
      [TraceEvent.network NetCall.login, TraceEvent.fileNameErrorLogged f,
       TraceEvent.network NetCall.getRepositories, TraceEvent.network NetCall.agentLookup] := by
  have h : set_action_type f = Except.error f := by
    simp [set_action_type, hc, hu]
  exact ⟨h, by simp [run_head_trace, file_head_trace, h]⟩

/-- C6 witness: the amended theorem applied at the concrete filename
`july_batch.csv`. -/
theorem C6_filename_error_amended_witness :
    set_action_type "july_batch.csv" = Except.error "july_batch.csv" :=
  (C6_filename_error_amended "july_batch.csv" (by decide) (by decide)).1

/-- C9: every hyphen-containing, slash-free string of length at least 10
(such as a date already in `YYYY-MM-DD` form) makes `check_dates` return
`None` without raising; `create_event` then still builds the payload with
a `None` begin date (not passing the date through), and the event is
still posted. -/
theorem C9_long_hyphen_dates_return_none (s : String)
    (hh : pyContains s "-" = true) (hs : pyContains s "/" = false)
    (hlen : 10 ≤ s.length) :
    check_dates s = DateRes.noneResult ∧
    (∀ agent ao repo ty oc nt : String,
      create_event agent ao repo ty oc s nt =
        Except.ok (some { event_type := pyLower ty, outcome := pyLower oc,
                          outcome_note := nt, authorizer_ref := agent,
                          source_ref := "/repositories/" ++ repo ++ "/archival_objects/" ++ ao,
                          date_begin := none }) ∧
      (∀ u : String, event_helper (some u) agent ao repo ty oc s nt = Except.ok (some u))) := by
  have hcd : check_dates s = DateRes.noneResult := by
    simp [check_dates, hs, hh, Nat.not_lt.mpr hlen]
  refine ⟨hcd, fun agent ao repo ty oc nt => ⟨?_, fun u => ?_⟩⟩
  · simp [create_event, hcd]
  · simp [event_helper, create_event, hcd]

/-- C9 witness: the theorem applied at the canonical-form date
`2024-03-04`, whose event is built and posted with a `None` begin. -/
theorem C9_long_hyphen_dates_return_none_witness :
    check_dates "2024-03-04" = DateRes.noneResult ∧
    event_helper (some "/repositories/2/events/12") "/agents/people/3"
      "/repositories/2/archival_objects/900" "2" "Imaging" "Success" "2024-03-04" "" =
      Except.ok (some "/repositories/2/events/12") :=
  ⟨(C9_long_hyphen_dates_return_none "2024-03-04" (by decide) (by decide) (by decide)).1,
   ((C9_long_hyphen_dates_return_none "2024-03-04" (by decide) (by decide) (by decide)).2
      "/agents/people/3" "/repositories/2/archival_objects/900" "2" "Imaging" "Success" "").2
      "/repositories/2/events/12"⟩

end Dass
